import Mathlib

/-!
Verification development for the file-sharing coordination layer
(file_sharing_part_3): the length-prefixed wire codec
(src/network/protocol.rs), the client facade (src/client/mod.rs), and the
command/event loop described in the design document.

Machine bytes are modelled as natural numbers below 256; a Rust `String`
is modelled as its list of UTF-8 bytes; a byte stream is a list of bytes;
fallible Rust functions return an explicit result type in which a Rust
panic is a distinguished outcome.
-/

namespace FileSharing

/-- A byte on the wire (0 ≤ b < 256), modelled as a natural number. -/
abbrev Byte := Nat

/-- The io error kinds the codec can return: `io::ErrorKind::UnexpectedEof`
and the `InvalidData` error produced by `read_length_prefixed` when the
declared frame length exceeds the maximum. -/
inductive IoErr where
  | unexpectedEof
  | invalidData
deriving DecidableEq, Repr

/-- Outcome of running a codec function: a normal return value, an io error
returned to the caller, or a Rust panic (process abort, e.g. from
`.unwrap()`). -/
inductive CResult (α : Type) where
  | ok (a : α)
  | ioError (e : IoErr)
  | panicked
deriving DecidableEq, Repr

/-- Unsigned-varint encoding (7 data bits per byte, high bit set on every
byte but the last), the framing used by `write_length_prefixed`. -/
def varintEncode (n : Nat) : List Byte :=
  if n < 128 then [n] else (n % 128 + 128) :: varintEncode (n / 128)
decreasing_by exact Nat.div_lt_self (by omega) (by omega)

/-- Reading the bytes of a varint once at least one byte has arrived:
end-of-stream in the middle of a varint is an `UnexpectedEof` error. -/
def readVarintLoop : List Byte → Except IoErr (Nat × List Byte)
  | [] => .error .unexpectedEof
  | b :: rest =>
    if b < 128 then .ok (b, rest)
    else
      match readVarintLoop rest with
      | .ok (v, r) => .ok (b % 128 + v * 128, r)
      | .error e => .error e

/-- libp2p `read_varint`: end-of-stream before the first byte is reported
as the value 0 (the caller then sees an empty frame); end-of-stream after
at least one byte is an `UnexpectedEof` error. -/
def read_varint (stream : List Byte) : Except IoErr (Nat × List Byte) :=
  match stream with
  | [] => .ok (0, [])
  | b :: rest => readVarintLoop (b :: rest)

/-- libp2p `read_length_prefixed(socket, max_size)`: read a varint length,
fail with `InvalidData` if it exceeds `maxSize` (before reading any payload
byte), then read exactly that many payload bytes (`UnexpectedEof` if the
stream ends first).  Returns the payload and the unread remainder. -/
def read_length_prefixed (stream : List Byte) (maxSize : Nat) :
    Except IoErr (List Byte × List Byte) :=
  match read_varint stream with
  | .error e => .error e
  | .ok (len, rest) =>
    if maxSize < len then .error .invalidData
    else if rest.length < len then .error .unexpectedEof
    else .ok (rest.take len, rest.drop len)

/-- A UTF-8 continuation byte: 0x80 ≤ b ≤ 0xBF. -/
def contByte (b : Byte) : Bool := 128 ≤ b && b < 192

/-- Standard UTF-8 validity of a byte sequence, as checked by Rust
`String::from_utf8`: ASCII bytes stand alone; lead bytes 0xC2–0xDF,
0xE0–0xEF and 0xF0–0xF4 start 2-, 3- and 4-byte sequences with the usual
overlong (0xE0, 0xF0), surrogate (0xED) and range (0xF4) restrictions. -/
def utf8Valid : List Byte → Bool
  | [] => true
  | b :: rest =>
    if b < 128 then utf8Valid rest
    else if b < 194 then false
    else if b < 224 then
      match rest with
      | b1 :: r => contByte b1 && utf8Valid r
      | [] => false
    else if b < 240 then
      match rest with
      | b1 :: b2 :: r =>
        (if b = 224 then 160 ≤ b1 && b1 < 192
         else if b = 237 then 128 ≤ b1 && b1 < 160
         else contByte b1) && contByte b2 && utf8Valid r
      | _ => false
    else if b < 245 then
      match rest with
      | b1 :: b2 :: b3 :: r =>
        (if b = 240 then 144 ≤ b1 && b1 < 192
         else if b = 244 then 128 ≤ b1 && b1 < 144
         else contByte b1) && contByte b2 && contByte b3 && utf8Valid r
      | _ => false
    else false

/-- Rust `String::from_utf8`: succeeds exactly on valid UTF-8 byte
sequences (a Rust `String` is modelled as its list of UTF-8 bytes). -/
def from_utf8 (v : List Byte) : Option (List Byte) :=
  if utf8Valid v then some v else none

/-- Wire message `FileRequest(pub String)` of protocol.rs. -/
structure FileRequest where
  text : List Byte
deriving DecidableEq, Repr

/-- Wire message `FileResponse(pub String)` of protocol.rs. -/
structure FileResponse where
  text : List Byte
deriving DecidableEq, Repr

/-- The unit struct `FileExchangeProtocol()` of protocol.rs. -/
structure FileExchangeProtocol where
deriving DecidableEq, Repr

/-- `ProtocolName::protocol_name` for `FileExchangeProtocol`:
`"/file-exchange/1".as_bytes()` (the string is pure ASCII, so its UTF-8
bytes are the code points of its characters). -/
def protocol_name (_ : FileExchangeProtocol) : List Byte :=
  "/file-exchange/1".toList.map Char.toNat

/-- `FileExchangeCodec::read_request`: `read_length_prefixed(io, 1_000_000)`,
then the empty-payload check returning `UnexpectedEof`, then
`String::from_utf8(vec).unwrap()` — which panics when the payload is not
valid UTF-8. -/
def read_request (stream : List Byte) : CResult FileRequest :=
  match read_length_prefixed stream 1000000 with
  | .error e => .ioError e
  | .ok (vec, _) =>
    if vec.isEmpty then .ioError .unexpectedEof
    else
      match from_utf8 vec with
      | some s => .ok ⟨s⟩
      | none => .panicked

/-- `FileExchangeCodec::read_response`: identical body to `read_request`,
producing a `FileResponse`. -/
def read_response (stream : List Byte) : CResult FileResponse :=
  match read_length_prefixed stream 1000000 with
  | .error e => .ioError e
  | .ok (vec, _) =>
    if vec.isEmpty then .ioError .unexpectedEof
    else
      match from_utf8 vec with
      | some s => .ok ⟨s⟩
      | none => .panicked

/-- An observable action a writer performs on its duplex stream. -/
inductive StreamAction where
  | write (bytes : List Byte)
  | closeWrite
  | closeRead
deriving DecidableEq, Repr

/-- libp2p `write_length_prefixed(socket, data)`: write the varint length,
then the payload bytes.  It imposes no maximum on the payload length. -/
def write_length_prefixed (data : List Byte) : List StreamAction :=
  [.write (varintEncode data.length), .write data]

/-- `FileExchangeCodec::write_request`: `write_length_prefixed(io, data)`
followed by `io.close()` — a half-close of the write side only (the type
of `io` is `AsyncWrite`; the read side of the stream is untouched). -/
def write_request (m : FileRequest) : List StreamAction :=
  write_length_prefixed m.text ++ [.closeWrite]

/-- `FileExchangeCodec::write_response`: identical body to `write_request`
for a `FileResponse`. -/
def write_response (m : FileResponse) : List StreamAction :=
  write_length_prefixed m.text ++ [.closeWrite]

/-- The byte stream a reader at the far end observes: the concatenation of
all bytes written (close actions carry no bytes). -/
def writtenBytes : List StreamAction → List Byte
  | [] => []
  | .write bs :: rest => bs ++ writtenBytes rest
  | .closeWrite :: rest => writtenBytes rest
  | .closeRead :: rest => writtenBytes rest

/-- Outcome of a public `Client` method: a normal return value, or a Rust
panic raised by one of the `.expect(...)` calls in its body. -/
inductive CallResult (α : Type) where
  | ok (a : α)
  | panicked
deriving DecidableEq, Repr

/-- An error value surfaced to a `Client` caller
(`Box<dyn Error + Send>` in the source), modelled opaquely. -/
structure BoxedError where
  msg : List Byte
deriving DecidableEq, Repr

/-- A peer identity (`PeerId`), modelled opaquely as a natural number. -/
abbrev PeerId := Nat

/-- A network address (`Multiaddr`), modelled opaquely. -/
abbrev Multiaddr := Nat

/-- `Client::start_listening`: builds a oneshot channel, sends
`Command::StartListening` with `.expect("Command receiver not to be
dropped.")` — a panic when the command receiver is gone — then awaits the
reply with `.expect("Sender not to be dropped.")` — a panic when the reply
sender was dropped without an answer (`reply = none`). -/
def start_listening (receiverDropped : Bool) (_addr : Multiaddr)
    (reply : Option (Except BoxedError Unit)) :
    CallResult (Except BoxedError Unit) :=
  if receiverDropped then .panicked
  else
    match reply with
    | none => .panicked
    | some v => .ok v

/-- `Client::dial`: sends `Command::Dial` with `.expect(...)`, then awaits
the reply with `.expect(...)`; panics in the same two situations as
`start_listening`. -/
def dial (receiverDropped : Bool) (_peer_id : PeerId) (_peer_addr : Multiaddr)
    (reply : Option (Except BoxedError Unit)) :
    CallResult (Except BoxedError Unit) :=
  if receiverDropped then .panicked
  else
    match reply with
    | none => .panicked
    | some v => .ok v

/-- `Client::start_providing`: sends `Command::StartProviding` with
`.expect(...)`, then awaits the unit acknowledgement with `.expect(...)`. -/
def start_providing (receiverDropped : Bool) (_file_name : List Byte)
    (reply : Option Unit) : CallResult Unit :=
  if receiverDropped then .panicked
  else
    match reply with
    | none => .panicked
    | some v => .ok v

/-- `Client::get_providers`: sends `Command::GetProviders` with
`.expect(...)`, then awaits the provider set (`HashSet<PeerId>`, modelled
as a list of peer identities) with `.expect(...)`.  Its return type carries
no error variant: the only outcomes are the set itself or a panic. -/
def get_providers (receiverDropped : Bool) (_file_name : List Byte)
    (reply : Option (List PeerId)) : CallResult (List PeerId) :=
  if receiverDropped then .panicked
  else
    match reply with
    | none => .panicked
    | some v => .ok v

/-- `Client::request_file`: sends `Command::RequestFile` with
`.expect(...)`, then awaits the file content with `.expect("Sender not be
dropped.")`. -/
def request_file (receiverDropped : Bool) (_peer : PeerId)
    (_file_name : List Byte)
    (reply : Option (Except BoxedError (List Byte))) :
    CallResult (Except BoxedError (List Byte)) :=
  if receiverDropped then .panicked
  else
    match reply with
    | none => .panicked
    | some v => .ok v

/-- `Client::respond_file`: sends `Command::RespondFile` with
`.expect(...)` and does not await anything (the command carries no reply
channel). -/
def respond_file (receiverDropped : Bool) (_file : List Byte)
    (_channel : Nat) : CallResult Unit :=
  if receiverDropped then .panicked
  else .ok ()

/-- Modelled from the spec: the `Command` enum of src/client/command.rs is
not present under src/ (only its senders in client/mod.rs are); §4.3 lists
the closed set of operations, each reply-bearing one holding a one-shot
reply channel (modelled as a channel identifier). -/
inductive Command where
  | startListening (addr : Multiaddr) (reply : Nat)
  | dial (peerId : PeerId) (addr : Multiaddr) (reply : Nat)
  | startProviding (fileKey : List Byte) (reply : Nat)
  | getProviders (fileKey : List Byte) (reply : Nat)
  | requestFile (fileKey : List Byte) (peerId : PeerId) (reply : Nat)
  | respondFile (content : List Byte) (channel : Nat)
deriving DecidableEq, Repr

/-- Modelled from the spec: the values the Event Loop sends down reply
channels (§4.3): bind/dial success or failure, the providing
acknowledgement, a provider set (possibly empty, never a failure), and the
file content or a transfer error. -/
inductive ReplyVal where
  | okUnit
  | errMsg
  | providingDone
  | providers (peers : List PeerId)
  | fileContent (content : List Byte)
  | fileErr
deriving DecidableEq, Repr

/-- Look up a key in an association list (the pending-request maps). -/
def alLookup (k : Nat) : List (Nat × Nat) → Option Nat
  | [] => none
  | (k1, v) :: rest => if k1 = k then some v else alLookup k rest

/-- Remove the entry of a key from an association list; under the spec
invariant (§3) each key maps to at most one pending entry. -/
def alErase (k : Nat) : List (Nat × Nat) → List (Nat × Nat)
  | [] => []
  | (k1, v) :: rest => if k1 = k then rest else (k1, v) :: alErase k rest

/-- Modelled from the spec: the Event Loop state (src/network/event.rs is
not present under src/); §4.5: one pending map per in-flight operation
type, from a substrate-issued correlation id to the awaiting reply
channel. -/
structure EventLoopState where
  pendingDial : List (Nat × Nat)
  pendingStartProviding : List (Nat × Nat)
  pendingGetProviders : List (Nat × Nat)
  pendingRequestFile : List (Nat × Nat)
deriving DecidableEq, Repr

/-- Modelled from the spec: the engine events the Event Loop consumes
(§4.5 "On engine event"), keyed by the substrate correlation ids. -/
inductive EngineEvent where
  | providingStarted (qid : Nat)
  | providersFound (qid : Nat) (peers : List PeerId)
  | queryFailed (qid : Nat)
  | responseReceived (rid : Nat) (content : List Byte)
  | outboundFailure (rid : Nat)
  | dialSucceeded (aid : Nat)
  | dialFailed (aid : Nat)
  | inboundRequest (fileName : List Byte) (channel : Nat)
  | newListenAddr (addr : Multiaddr)
deriving DecidableEq, Repr

/-- Modelled from the spec: Event Loop command handling (§4.5 "On
command").  `bindOk` is the synchronous bind result the engine reports for
`StartListening`; `fresh` is the substrate-issued correlation id of the
dispatched operation.  Returns the new state and the replies delivered
(channel, value). -/
def handle_command (st : EventLoopState) (c : Command) (bindOk : Bool)
    (fresh : Nat) : EventLoopState × List (Nat × ReplyVal) :=
  match c with
  | .startListening _ reply =>
      (st, [(reply, if bindOk then .okUnit else .errMsg)])
  | .dial _ _ reply =>
      ({ st with pendingDial := (fresh, reply) :: st.pendingDial }, [])
  | .startProviding _ reply =>
      ({ st with
          pendingStartProviding := (fresh, reply) :: st.pendingStartProviding },
       [])
  | .getProviders _ reply =>
      ({ st with
          pendingGetProviders := (fresh, reply) :: st.pendingGetProviders },
       [])
  | .requestFile _ _ reply =>
      ({ st with
          pendingRequestFile := (fresh, reply) :: st.pendingRequestFile },
       [])
  | .respondFile _ _ => (st, [])

/-- Modelled from the spec: Event Loop engine-event handling (§4.5 "On
engine event", §7): each event that corresponds to a pending entry
consumes the entry and delivers exactly one reply; a failed discovery
query resolves a providers query with the empty set and a providing query
with the plain acknowledgement (providers queries never fail outwardly,
§4.3/§7); events with no pending entry are ignored; inbound requests go to
the application event stream, and new listen addresses are log-only. -/
def handle_event (st : EventLoopState) (e : EngineEvent) :
    EventLoopState × List (Nat × ReplyVal) :=
  match e with
  | .providingStarted qid =>
      match alLookup qid st.pendingStartProviding with
      | some reply =>
          ({ st with
              pendingStartProviding := alErase qid st.pendingStartProviding },
           [(reply, .providingDone)])
      | none => (st, [])
  | .providersFound qid peers =>
      match alLookup qid st.pendingGetProviders with
      | some reply =>
          ({ st with pendingGetProviders := alErase qid st.pendingGetProviders },
           [(reply, .providers peers)])
      | none => (st, [])
  | .queryFailed qid =>
      match alLookup qid st.pendingGetProviders with
      | some reply =>
          ({ st with pendingGetProviders := alErase qid st.pendingGetProviders },
           [(reply, .providers [])])
      | none =>
          match alLookup qid st.pendingStartProviding with
          | some reply =>
              ({ st with
                  pendingStartProviding := alErase qid st.pendingStartProviding },
               [(reply, .providingDone)])
          | none => (st, [])
  | .responseReceived rid content =>
      match alLookup rid st.pendingRequestFile with
      | some reply =>
          ({ st with pendingRequestFile := alErase rid st.pendingRequestFile },
           [(reply, .fileContent content)])
      | none => (st, [])
  | .outboundFailure rid =>
      match alLookup rid st.pendingRequestFile with
      | some reply =>
          ({ st with pendingRequestFile := alErase rid st.pendingRequestFile },
           [(reply, .fileErr)])
      | none => (st, [])
  | .dialSucceeded aid =>
      match alLookup aid st.pendingDial with
      | some reply =>
          ({ st with pendingDial := alErase aid st.pendingDial },
           [(reply, .okUnit)])
      | none => (st, [])
  | .dialFailed aid =>
      match alLookup aid st.pendingDial with
      | some reply =>
          ({ st with pendingDial := alErase aid st.pendingDial },
           [(reply, .errMsg)])
      | none => (st, [])
  | .inboundRequest _ _ => (st, [])
  | .newListenAddr _ => (st, [])

/-! Helper lemmas about the varint framing, shared by several results. -/

theorem varintEncode_ne_nil (n : Nat) : varintEncode n ≠ [] := by
  unfold varintEncode
  by_cases h : n < 128 <;> simp [h]

theorem readVarintLoop_encode (n : Nat) (rest : List Byte) :
    readVarintLoop (varintEncode n ++ rest) = .ok (n, rest) := by
  induction n using Nat.strong_induction_on with
  | _ n ih =>
    unfold varintEncode
    by_cases h : n < 128
    · simp [h, readVarintLoop]
    · have h2 : n / 128 < n := Nat.div_lt_self (by omega) (by omega)
      have hb : ¬ (n % 128 + 128 < 128) := by omega
      simp only [if_neg h, List.cons_append, readVarintLoop, if_neg hb,
        ih (n / 128) h2]
      have hm : (n % 128 + 128) % 128 + n / 128 * 128 = n := by omega
      rw [hm]

theorem read_varint_encode (n : Nat) (rest : List Byte) :
    read_varint (varintEncode n ++ rest) = .ok (n, rest) := by
  have h := readVarintLoop_encode n rest
  cases hvn : varintEncode n with
  | nil => exact absurd hvn (varintEncode_ne_nil n)
  | cons b l =>
    rw [hvn] at h
    simpa [read_varint] using h

theorem read_length_prefixed_encode (data rest : List Byte) (maxSize : Nat)
    (h : data.length ≤ maxSize) :
    read_length_prefixed (varintEncode data.length ++ (data ++ rest)) maxSize
      = .ok (data, rest) := by
  rw [read_length_prefixed, read_varint_encode]
  have h1 : ¬ (maxSize < data.length) := by omega
  have h2 : ¬ ((data ++ rest).length < data.length) := by
    simp [List.length_append]
  simp [h1, h2, List.take_left, List.drop_left]

theorem read_length_prefixed_length_le (stream : List Byte) (maxSize : Nat)
    (vec rest : List Byte)
    (h : read_length_prefixed stream maxSize = .ok (vec, rest)) :
    vec.length ≤ maxSize := by
  rw [read_length_prefixed] at h
  cases hv : read_varint stream with
  | error e => rw [hv] at h; simp at h
  | ok p =>
    obtain ⟨len, r⟩ := p
    rw [hv] at h
    by_cases h1 : maxSize < len
    · simp [h1] at h
    · by_cases h2 : r.length < len
      · simp [h1, h2] at h
      · simp only [if_neg h1, if_neg h2, Except.ok.injEq, Prod.mk.injEq] at h
        obtain ⟨hvec, -⟩ := h
        subst hvec
        simp [List.length_take]
        omega

theorem read_request_ok_length (stream : List Byte) (m : FileRequest)
    (h : read_request stream = .ok m) : m.text.length ≤ 1000000 := by
  rw [read_request] at h
  cases hrl : read_length_prefixed stream 1000000 with
  | error e => rw [hrl] at h; exact absurd h (by simp)
  | ok p =>
    obtain ⟨vec, r⟩ := p
    have hlen := read_length_prefixed_length_le stream 1000000 vec r hrl
    rw [hrl] at h
    by_cases hie : vec.isEmpty
    · simp [hie] at h
    · simp only [Bool.not_eq_true] at hie
      simp only [hie, Bool.false_eq_true, if_false, from_utf8] at h
      by_cases hv : utf8Valid vec
      · simp only [hv, if_true] at h
        cases h
        exact hlen
      · simp [hv] at h

theorem read_response_ok_length (stream : List Byte) (m : FileResponse)
    (h : read_response stream = .ok m) : m.text.length ≤ 1000000 := by
  rw [read_response] at h
  cases hrl : read_length_prefixed stream 1000000 with
  | error e => rw [hrl] at h; exact absurd h (by simp)
  | ok p =>
    obtain ⟨vec, r⟩ := p
    have hlen := read_length_prefixed_length_le stream 1000000 vec r hrl
    rw [hrl] at h
    by_cases hie : vec.isEmpty
    · simp [hie] at h
    · simp only [Bool.not_eq_true] at hie
      simp only [hie, Bool.false_eq_true, if_false, from_utf8] at h
      by_cases hv : utf8Valid vec
      · simp only [hv, if_true] at h
        cases h
        exact hlen
      · simp [hv] at h

/-! Claim theorems. -/

/-- Claim C9: protocol_name of FileExchangeProtocol returns exactly the
bytes of the fixed string "/file-exchange/1", for every invocation. -/
theorem protocol_name_fixed (p : FileExchangeProtocol) :
    protocol_name p
      = [47, 102, 105, 108, 101, 45, 101, 120, 99, 104, 97, 110, 103, 101,
         47, 49] := by
  cases p
  decide

/-- Claim C4: a zero-length incoming frame (canonical varint length 0; an
immediate end-of-stream is likewise reported by read_varint as length 0)
makes read_request and read_response return an UnexpectedEof error rather
than an empty FileRequest/FileResponse. -/
theorem zero_length_frame_eof (rest : List Byte) :
    read_request (varintEncode 0 ++ rest) = .ioError .unexpectedEof ∧
    read_response (varintEncode 0 ++ rest) = .ioError .unexpectedEof ∧
    read_request [] = .ioError .unexpectedEof ∧
    read_response [] = .ioError .unexpectedEof := by
  have h0 : varintEncode 0 = [0] := by simp [varintEncode]
  refine ⟨?_, ?_, by decide, by decide⟩ <;>
    simp [h0, read_request, read_response, read_length_prefixed, read_varint,
      readVarintLoop]

/-- Claim C5: read_request and read_response reject any frame whose
declared length exceeds 1,000,000 bytes with an InvalidData error — for
every remainder of the stream, in particular one holding fewer bytes than
declared, so the payload is never read — and any successfully decoded
message has text of at most 1,000,000 bytes. -/
theorem oversized_frame_rejected (n : Nat) (rest : List Byte)
    (h : 1000000 < n) :
    read_request (varintEncode n ++ rest) = .ioError .invalidData ∧
    read_response (varintEncode n ++ rest) = .ioError .invalidData ∧
    (∀ stream m, read_request stream = .ok m → m.text.length ≤ 1000000) ∧
    (∀ stream m, read_response stream = .ok m → m.text.length ≤ 1000000) := by
  refine ⟨?_, ?_, read_request_ok_length, read_response_ok_length⟩
  · rw [read_request, read_length_prefixed, read_varint_encode]
    simp [h]
  · rw [read_response, read_length_prefixed, read_varint_encode]
    simp [h]

/-- Claim C5 witness: the declared length 1,000,001 exceeds the cap and the
(empty-payload) frame is rejected with InvalidData. -/
theorem oversized_frame_rejected_witness :
    1000000 < 1000001 ∧
    read_request (varintEncode 1000001 ++ []) = .ioError .invalidData :=
  ⟨by decide, (oversized_frame_rejected 1000001 [] (by decide)).1⟩

/-- Claim C6: write_request and write_response perform exactly three
stream actions — write the varint length prefix, write the payload, then
half-close the write side — in that order, and never close the read
side. -/
theorem write_then_halfclose (m : FileRequest) (m2 : FileResponse) :
    write_request m
      = [.write (varintEncode m.text.length), .write m.text, .closeWrite] ∧
    StreamAction.closeRead ∉ write_request m ∧
    write_response m2
      = [.write (varintEncode m2.text.length), .write m2.text, .closeWrite] ∧
    StreamAction.closeRead ∉ write_response m2 := by
  refine ⟨rfl, ?_, rfl, ?_⟩ <;>
    simp [write_request, write_response, write_length_prefixed]

/-- Claim C10: the 1,000,000-byte cap is enforced only on the read side.
For every string — empty or longer than the cap included — write_request
and write_response emit a frame of exactly that declared length (the write
itself never rejects the payload); it is the receiving decoder that
rejects the zero-length frame (UnexpectedEof) and the over-cap frame
(InvalidData). -/
theorem write_side_unchecked (data : List Byte) :
    writtenBytes (write_request ⟨data⟩) = varintEncode data.length ++ data ∧
    writtenBytes (write_response ⟨data⟩) = varintEncode data.length ++ data ∧
    read_request (writtenBytes (write_request ⟨[]⟩))
      = .ioError .unexpectedEof ∧
    read_response (writtenBytes (write_response ⟨[]⟩))
      = .ioError .unexpectedEof ∧
    (1000000 < data.length →
      read_request (writtenBytes (write_request ⟨data⟩))
        = .ioError .invalidData) ∧
    (1000000 < data.length →
      read_response (writtenBytes (write_response ⟨data⟩))
        = .ioError .invalidData) := by
  have hw : writtenBytes (write_request ⟨data⟩)
      = varintEncode data.length ++ data := by
    simp [write_request, write_length_prefixed, writtenBytes]
  have hw2 : writtenBytes (write_response ⟨data⟩)
      = varintEncode data.length ++ data := by
    simp [write_response, write_length_prefixed, writtenBytes]
  have h0 : varintEncode (0 : Nat) = [0] := by simp [varintEncode]
  refine ⟨hw, hw2, ?_, ?_, ?_, ?_⟩
  · simp [write_request, write_length_prefixed, writtenBytes, h0,
      read_request, read_length_prefixed, read_varint, readVarintLoop]
  · simp [write_response, write_length_prefixed, writtenBytes, h0,
      read_response, read_length_prefixed, read_varint, readVarintLoop]
  · intro hbig
    rw [hw, read_request, read_length_prefixed, read_varint_encode]
    simp [hbig]
  · intro hbig
    rw [hw2, read_response, read_length_prefixed, read_varint_encode]
    simp [hbig]

/-- Claim C10 witness: a 1,000,001-byte payload is written as-is by
write_request and only the receiving read_request rejects it. -/
theorem write_side_unchecked_witness :
    1000000 < (List.replicate 1000001 (0 : Byte)).length ∧
    read_request (writtenBytes (write_request ⟨List.replicate 1000001 0⟩))
      = .ioError .invalidData := by
  have hlen : 1000000 < (List.replicate 1000001 (0 : Byte)).length := by
    rw [List.length_replicate]
    omega
  exact ⟨hlen,
    (write_side_unchecked (List.replicate 1000001 0)).2.2.2.2.1 hlen⟩

/-- Claim C2 counterexample: the empty string has length within the size
cap, yet writing it with write_request/write_response and decoding the
stream back fails with UnexpectedEof instead of succeeding. -/
theorem empty_string_roundtrip_fails :
    ([] : List Byte).length ≤ 1000000 ∧
    read_request (writtenBytes (write_request ⟨[]⟩)) ≠ .ok ⟨[]⟩ ∧
    read_request (writtenBytes (write_request ⟨[]⟩))
      = .ioError .unexpectedEof ∧
    read_response (writtenBytes (write_response ⟨[]⟩)) ≠ .ok ⟨[]⟩ ∧
    read_response (writtenBytes (write_response ⟨[]⟩))
      = .ioError .unexpectedEof := by
  have h0 : varintEncode (0 : Nat) = [0] := by simp [varintEncode]
  refine ⟨by simp, ?_, ?_, ?_, ?_⟩ <;>
    simp [write_request, write_response, write_length_prefixed, writtenBytes,
      h0, read_request, read_response, read_length_prefixed, read_varint,
      readVarintLoop]

/-- Claim C2 (amended): for every nonempty string of at most 1,000,000
bytes, writing a FileRequest (resp. FileResponse) with write_request
(resp. write_response) and decoding the resulting stream with read_request
(resp. read_response) succeeds and yields byte-identical text. -/
theorem roundtrip_nonempty (s : List Byte) (hv : utf8Valid s = true)
    (hne : s ≠ []) (hlen : s.length ≤ 1000000) :
    read_request (writtenBytes (write_request ⟨s⟩)) = .ok ⟨s⟩ ∧
    read_response (writtenBytes (write_response ⟨s⟩)) = .ok ⟨s⟩ := by
  have hie : s.isEmpty = false := by
    cases s with
    | nil => exact absurd rfl hne
    | cons a l => rfl
  have hw : writtenBytes (write_request ⟨s⟩)
      = varintEncode s.length ++ s := by
    simp [write_request, write_length_prefixed, writtenBytes]
  have hw2 : writtenBytes (write_response ⟨s⟩)
      = varintEncode s.length ++ s := by
    simp [write_response, write_length_prefixed, writtenBytes]
  have hrl : read_length_prefixed (varintEncode s.length ++ s) 1000000
      = .ok (s, []) := by
    simpa using read_length_prefixed_encode s [] 1000000 hlen
  constructor
  · rw [hw, read_request, hrl]
    simp [hie, from_utf8, hv]
  · rw [hw2, read_response, hrl]
    simp [hie, from_utf8, hv]

/-- Claim C2 witness: the two-byte string "hi" round-trips through both
directions of the codec. -/
theorem roundtrip_nonempty_witness :
    utf8Valid [104, 105] = true ∧ ([104, 105] : List Byte) ≠ [] ∧
    ([104, 105] : List Byte).length ≤ 1000000 ∧
    read_request (writtenBytes (write_request ⟨[104, 105]⟩))
      = .ok ⟨[104, 105]⟩ :=
  ⟨by decide, by decide, by decide,
   (roundtrip_nonempty [104, 105] (by decide) (by decide) (by decide)).1⟩

/-- Claim C3 counterexample: the frame [1, 0xFF] declares one payload byte
0xFF, which is not valid UTF-8; read_request and read_response panic
(String::from_utf8(vec).unwrap()) instead of returning a protocol error of
either kind. -/
theorem nonutf8_frame_panics_cx :
    read_request [1, 255] = .panicked ∧
    read_request [1, 255] ≠ .ioError .unexpectedEof ∧
    read_request [1, 255] ≠ .ioError .invalidData ∧
    read_response [1, 255] = .panicked ∧
    read_response [1, 255] ≠ .ioError .unexpectedEof ∧
    read_response [1, 255] ≠ .ioError .invalidData := by
  decide

/-- Claim C3 (amended): for every well-formed length-prefixed frame whose
nonempty in-cap payload is not valid UTF-8, read_request and read_response
abort with a panic (unwrap on String::from_utf8) for that exchange, rather
than returning a protocol error. -/
theorem nonutf8_frame_panics (v rest : List Byte)
    (hv : utf8Valid v = false) (hne : v ≠ []) (hlen : v.length ≤ 1000000) :
    read_request (varintEncode v.length ++ (v ++ rest)) = .panicked ∧
    read_response (varintEncode v.length ++ (v ++ rest)) = .panicked := by
  have hie : v.isEmpty = false := by
    cases v with
    | nil => exact absurd rfl hne
    | cons a l => rfl
  have hrl := read_length_prefixed_encode v rest 1000000 hlen
  constructor
  · rw [read_request, hrl]
    simp [hie, from_utf8, hv]
  · rw [read_response, hrl]
    simp [hie, from_utf8, hv]

/-- Claim C3 witness: the single invalid byte 0xFF framed with its varint
length makes both decoders panic. -/
theorem nonutf8_frame_panics_witness :
    utf8Valid [255] = false ∧ ([255] : List Byte) ≠ [] ∧
    ([255] : List Byte).length ≤ 1000000 ∧
    read_request (varintEncode ([255] : List Byte).length ++ ([255] ++ []))
      = .panicked :=
  ⟨by decide, by decide, by decide,
   (nonutf8_frame_panics [255] [] (by decide) (by decide) (by decide)).1⟩

/-- Claim C8: every public Client operation panics — rather than returning
a normal error value — when the outbound command channel is closed
(receiverDropped, the first .expect), and every reply-awaiting operation
additionally panics when the reply channel is dropped without an answer
(reply = none, the second .expect); respond_file carries no reply channel,
so only the first condition applies to it. -/
theorem client_aborts_on_broken_channels :
    (∀ a rep, start_listening true a rep = .panicked) ∧
    (∀ a, start_listening false a none = .panicked) ∧
    (∀ p a rep, dial true p a rep = .panicked) ∧
    (∀ p a, dial false p a none = .panicked) ∧
    (∀ f rep, start_providing true f rep = .panicked) ∧
    (∀ f, start_providing false f none = .panicked) ∧
    (∀ f rep, get_providers true f rep = .panicked) ∧
    (∀ f, get_providers false f none = .panicked) ∧
    (∀ p f rep, request_file true p f rep = .panicked) ∧
    (∀ p f, request_file false p f none = .panicked) ∧
    (∀ f c, respond_file true f c = .panicked) := by
  refine ⟨?_, ?_, ?_, ?_, ?_, ?_, ?_, ?_, ?_, ?_, ?_⟩ <;> intros <;>
    simp [start_listening, dial, start_providing, get_providers,
      request_file, respond_file]

/-- Claim C7: a providers query never surfaces an error to the caller: the
Event Loop resolves a pending GetProviders entry with the discovered peer
set on success and with the empty set on query failure (never an error
value), and the Client facade returns whatever set arrives — including the
empty set — as a normal result; its return type has no failure variant. -/
theorem get_providers_empty_is_valid (st : EventLoopState) (q r : Nat)
    (ps : List PeerId)
    (h : alLookup q st.pendingGetProviders = some r) :
    (handle_event st (.providersFound q ps)).2 = [(r, .providers ps)] ∧
    (handle_event st (.queryFailed q)).2 = [(r, .providers [])] ∧
    (∀ k s, get_providers false k (some s) = .ok s) ∧
    (∀ k, get_providers false k (some []) = .ok []) := by
  refine ⟨?_, ?_, ?_, ?_⟩
  · simp [handle_event, h]
  · simp [handle_event, h]
  · intro k s
    simp [get_providers]
  · intro k
    simp [get_providers]

/-- Claim C7 witness: with channel 1 pending under query id 0, a failed
query resolves it with the empty provider set. -/
theorem get_providers_empty_is_valid_witness :
    alLookup 0 (EventLoopState.mk [] [] [(0, 1)] []).pendingGetProviders
      = some 1 ∧
    (handle_event ⟨[], [], [(0, 1)], []⟩ (.queryFailed 0)).2
      = [(1, .providers [])] :=
  ⟨rfl,
   (get_providers_empty_is_valid ⟨[], [], [(0, 1)], []⟩ 0 1 [] rfl).2.1⟩

/-- Claim C1: reply exactly once.  For each reply-bearing command
dispatched with a fresh correlation id q: StartListening replies exactly
once immediately on both bind outcomes and leaves no pending entry; Dial,
StartProviding, GetProviders and RequestFile register exactly one pending
entry and deliver no reply at dispatch, and each possible outcome event of
the operation — success, substrate failure, or an empty provider set —
delivers exactly one reply on the stored channel and removes the pending
entry, restoring the state: no reply channel is resolved twice or left
unresolved. -/
theorem reply_exactly_once (st : EventLoopState) (q r : Nat)
    (addr : Multiaddr) (peerId : PeerId) (fileKey : List Byte)
    (bindOk : Bool) (ps : List PeerId) (content : List Byte)
    (hg : alLookup q st.pendingGetProviders = none) :
    (handle_command st (.startListening addr r) bindOk q).2
      = [(r, if bindOk then .okUnit else .errMsg)] ∧
    (handle_command st (.startListening addr r) bindOk q).1 = st ∧
    (handle_command st (.dial peerId addr r) bindOk q).2 = [] ∧
    alLookup q
        ((handle_command st (.dial peerId addr r) bindOk q).1).pendingDial
      = some r ∧
    (handle_event (handle_command st (.dial peerId addr r) bindOk q).1
        (.dialSucceeded q)).2 = [(r, .okUnit)] ∧
    (handle_event (handle_command st (.dial peerId addr r) bindOk q).1
        (.dialSucceeded q)).1 = st ∧
    (handle_event (handle_command st (.dial peerId addr r) bindOk q).1
        (.dialFailed q)).2 = [(r, .errMsg)] ∧
    (handle_event (handle_command st (.dial peerId addr r) bindOk q).1
        (.dialFailed q)).1 = st ∧
    (handle_command st (.startProviding fileKey r) bindOk q).2 = [] ∧
    (handle_event
        (handle_command st (.startProviding fileKey r) bindOk q).1
        (.providingStarted q)).2 = [(r, .providingDone)] ∧
    (handle_event
        (handle_command st (.startProviding fileKey r) bindOk q).1
        (.providingStarted q)).1 = st ∧
    (handle_event
        (handle_command st (.startProviding fileKey r) bindOk q).1
        (.queryFailed q)).2 = [(r, .providingDone)] ∧
    (handle_event
        (handle_command st (.startProviding fileKey r) bindOk q).1
        (.queryFailed q)).1 = st ∧
    (handle_command st (.getProviders fileKey r) bindOk q).2 = [] ∧
    (handle_event (handle_command st (.getProviders fileKey r) bindOk q).1
        (.providersFound q ps)).2 = [(r, .providers ps)] ∧
    (handle_event (handle_command st (.getProviders fileKey r) bindOk q).1
        (.providersFound q ps)).1 = st ∧
    (handle_event (handle_command st (.getProviders fileKey r) bindOk q).1
        (.queryFailed q)).2 = [(r, .providers [])] ∧
    (handle_event (handle_command st (.getProviders fileKey r) bindOk q).1
        (.queryFailed q)).1 = st ∧
    (handle_command st (.requestFile fileKey peerId r) bindOk q).2 = [] ∧
    (handle_event
        (handle_command st (.requestFile fileKey peerId r) bindOk q).1
        (.responseReceived q content)).2 = [(r, .fileContent content)] ∧
    (handle_event
        (handle_command st (.requestFile fileKey peerId r) bindOk q).1
        (.responseReceived q content)).1 = st ∧
    (handle_event
        (handle_command st (.requestFile fileKey peerId r) bindOk q).1
        (.outboundFailure q)).2 = [(r, .fileErr)] ∧
    (handle_event
        (handle_command st (.requestFile fileKey peerId r) bindOk q).1
        (.outboundFailure q)).1 = st := by
  obtain ⟨pd, psp, pgp, prf⟩ := st
  refine ⟨rfl, rfl, rfl, ?_, ?_, ?_, ?_, ?_, rfl, ?_, ?_, ?_, ?_, rfl, ?_,
    ?_, ?_, ?_, rfl, ?_, ?_, ?_, ?_⟩ <;>
    simp [handle_command, handle_event, alLookup, alErase, hg]

/-- Claim C1 witness: on the empty state with fresh id 0 and reply
channel 1, StartListening delivers exactly its one success reply. -/
theorem reply_exactly_once_witness :
    alLookup 0 (EventLoopState.mk [] [] [] []).pendingGetProviders
      = none ∧
    (handle_command ⟨[], [], [], []⟩ (.startListening 2 1) true 0).2
      = [(1, if true then ReplyVal.okUnit else ReplyVal.errMsg)] :=
  ⟨rfl, (reply_exactly_once ⟨[], [], [], []⟩ 0 1 2 3 [] true [] [] rfl).1⟩

end FileSharing
